import Mathlib

/-!
Shallow embedding of the welfare-disbursement fraud-detection core
(repository Hari051106/Fraud).  The repository contains three variants of
the transaction core: a Flask/sqlite application (`app.py`, namespace
`App` below), a standalone sqlite script (`fraud-dection.py`, namespace
`FD`), and a file-backed test script (`test_fraud.py`, namespace `TF`).
Python strings stay `String`, SQL REAL amounts become `ℚ`, the sqlite
tables become lists in insertion order, and the external library calls
(`hashlib.sha256`, `datetime.strptime`, `datetime.today`, `datetime.now`)
become the fields of an `Env` parameter, so every theorem quantifies over
the hash function and the clock.
-/

namespace Fraud

/-- External-library context: `hash` models `hashlib.sha256(...).hexdigest()`,
`parseDate` models `datetime.strptime(s, "%Y-%m-%d")` as a day number
(`none` = `ValueError`), `today` models `datetime.today()` as a day number,
and `now` models `datetime.now().strftime("%Y-%m-%d %H:%M:%S")`. -/
structure Env where
  hash : String → String
  parseDate : String → Option Int
  today : Int
  now : String

/-- One row of the `ledger_entries` table (columns in schema order,
minus the autoincrement id). -/
structure LedgerEntry where
  timestamp : String
  citizen_hash : String
  scheme : String
  amount : ℚ
  previous_hash : String
  current_hash : String
deriving DecidableEq, Repr, Inhabited

/-- One row of the `citizens` table, as prepared by `prepare_citizen_record`. -/
structure CitizenRecord where
  citizen_id : String
  name : String
  account_status : String
  aadhaar_linked : Bool
  scheme_eligibility : String
  scheme_amount : ℚ
  claim_count : Int
  last_claim_date : String
deriving DecidableEq, Repr, Inhabited

/-- Whole mutable state of the process: the `SYSTEM_STATUS` global plus the
two sqlite tables. -/
structure SysState where
  status : String
  ledger : List LedgerEntry
  citizens : List CitizenRecord
deriving DecidableEq, Repr, Inhabited

def INITIAL_BUDGET : ℚ := 1000000

def AMOUNT_TOLERANCE : ℚ := 1 / 100

/-- Lookup in `SCHEME_AMOUNT_MAP`, wrapped by `get_expected_scheme_amount`. -/
def get_expected_scheme_amount (scheme : String) : Option ℚ :=
  if scheme = "Health_Scheme" then some 5000
  else if scheme = "Education_Scheme" then some 10000
  else if scheme = "Agriculture_Scheme" then some 15000
  else if scheme = "Housing_Scheme" then some 20000
  else none

/-- Function `hash_id`: sha256 of the citizen id. -/
def hash_id (env : Env) (citizen_id : String) : String :=
  env.hash citizen_id

/-- Function `amount_hash_value`: canonical string of an amount — integral values
without a decimal point, otherwise the value's own representation. -/
def amount_hash_value (amount : ℚ) : String :=
  if amount.den = 1 then toString amount.num else toString amount

/-- Function `generate_hash`: sha256 over the concatenation of the five fields. -/
def generate_hash (env : Env) (timestamp citizen_hash scheme amount previous_hash : String) : String :=
  env.hash (timestamp ++ citizen_hash ++ scheme ++ amount ++ previous_hash)

/-- Function `get_previous_hash`: `current_hash` of the chain tail, or `"GENESIS"`. -/
def get_previous_hash (ledger : List LedgerEntry) : String :=
  match ledger.getLast? with
  | none => "GENESIS"
  | some e => e.current_hash

/-- The hash `verify_ledger_integrity` recomputes for one row, from that
row's own stored fields. -/
def entry_recomputed (env : Env) (e : LedgerEntry) : String :=
  generate_hash env e.timestamp e.citizen_hash e.scheme (amount_hash_value e.amount) e.previous_hash

/-- The loop of `verify_ledger_integrity`, with the running
`previous_hash` accumulator made explicit. -/
def verify_from (env : Env) : String → List LedgerEntry → Bool
  | _, [] => true
  | prev, e :: rest =>
    if entry_recomputed env e ≠ e.current_hash ∨ e.previous_hash ≠ prev then false
    else verify_from env e.current_hash rest

/-- Function `verify_ledger_integrity` of `app.py` and `fraud-dection.py`
(identical code in both files). -/
def verify_ledger_integrity (env : Env) (ledger : List LedgerEntry) : Bool :=
  verify_from env "GENESIS" ledger

/-- The query `COALESCE(SUM(amount), 0)` over the ledger table. -/
def sum_amounts (ledger : List LedgerEntry) : ℚ :=
  ledger.foldl (fun acc e => acc + e.amount) 0

/-- Function `calculate_remaining_budget`. -/
def calculate_remaining_budget (ledger : List LedgerEntry) : ℚ :=
  max (INITIAL_BUDGET - sum_amounts ledger) 0

/-- Function `get_citizen_record`: lookup by unique `citizen_id`. -/
def get_citizen_record (citizens : List CitizenRecord) (citizen_id : String) : Option CitizenRecord :=
  citizens.find? (fun c => c.citizen_id = citizen_id)

/-- Python `int()` on a rational: truncation toward zero (`ℚ` is stored
normalized, so integer division of numerator by denominator truncates). -/
def int_trunc (q : ℚ) : Int :=
  q.num / (q.den : Int)

/-- Python `timestamp.split(" ")[0]`: the date part of a timestamp string. -/
def date_only (ts : String) : String :=
  (ts.splitOn " ").headD ""

namespace App

/-- The JSON dictionary returned by `process_transaction` in `app.py`;
keys absent from a given return statement are modelled as `none`. -/
structure AppResult where
  success : Bool
  message : String
  gate : Option String := none
  citizen_name : Option String := none
  remaining_budget : Option Int := none
  transaction_hash : Option String := none
deriving DecidableEq, Repr, Inhabited

/-- Function `eligibility_gate` of `app.py` (tolerance-based amount checks,
claim ceiling 3). -/
def eligibility_gate (row : CitizenRecord) (scheme : String) (amount : ℚ) : Bool × String :=
  if row.account_status ≠ "Active" then (false, "Account Not Active")
  else if row.aadhaar_linked ≠ true then (false, "Aadhaar Not Linked")
  else if row.scheme_eligibility ≠ scheme then (false, "Scheme Not Eligible")
  else
    match get_expected_scheme_amount scheme with
    | none => (false, "Unsupported Scheme")
    | some expected =>
      if |row.scheme_amount - expected| > AMOUNT_TOLERANCE then
        (false, "Registry Scheme Amount Mismatch")
      else if |amount - expected| > AMOUNT_TOLERANCE then
        (false, "Transaction Amount Mismatch")
      else if row.claim_count > 3 then (false, "Claim Limit Exceeded")
      else (true, "Eligible")

/-- Function `frequency_gate` of `app.py` (denial message carries the day count). -/
def frequency_gate (env : Env) (last_claim_date : String) : Bool × String :=
  match env.parseDate last_claim_date with
  | none => (false, "Invalid last claim date")
  | some last_date =>
    let d := env.today - last_date
    if d < 30 then (false, s!"Claim within 30 days not allowed (Last claim: {d} days ago)")
    else (true, "Frequency OK")

/-- Function `budget_gate` of `app.py`: may flip the `SYSTEM_STATUS` global to
`LOCKED`, so it returns the new state alongside the verdict. -/
def budget_gate (s : SysState) (amount : ℚ) : (Bool × String) × SysState :=
  let remaining := calculate_remaining_budget s.ledger
  if remaining ≤ 0 then ((false, "Budget Exhausted. System Locked."), { s with status := "LOCKED" })
  else if amount > remaining then ((false, "Insufficient Budget"), s)
  else ((true, "Budget Approved"), s)

/-- Function `process_transaction` of `app.py`: status check, integrity check,
citizen lookup, gates in the order eligibility / budget / frequency,
then ledger append and post-commit lock check. -/
def process_transaction (env : Env) (s : SysState) (citizen_id scheme : String) (amount : ℚ) :
    AppResult × SysState :=
  if s.status ≠ "ACTIVE" then
    let st := s.status
    ({ success := false, message := s!"System is {st}. Transaction Blocked.", gate := some "system" }, s)
  else if ¬ verify_ledger_integrity env s.ledger then
    ({ success := false, message := "Ledger Tampering Detected. System Frozen.",
       gate := some "integrity" }, { s with status := "FROZEN" })
  else
    match get_citizen_record s.citizens citizen_id with
    | none => ({ success := false, message := "Citizen Not Found", gate := some "lookup" }, s)
    | some row =>
      let e := eligibility_gate row scheme amount
      if ¬ e.1 then
        ({ success := false, message := e.2, gate := some "eligibility",
           citizen_name := some row.name }, s)
      else
        let b := budget_gate s amount
        if ¬ b.1.1 then
          ({ success := false, message := b.1.2, gate := some "budget",
             citizen_name := some row.name }, b.2)
        else
          let f := frequency_gate env row.last_claim_date
          if ¬ f.1 then
            ({ success := false, message := f.2, gate := some "frequency",
               citizen_name := some row.name }, b.2)
          else
            let citizen_hash := hash_id env citizen_id
            let timestamp := env.now
            let previous_hash := get_previous_hash b.2.ledger
            let amount_str := amount_hash_value amount
            let current_hash := generate_hash env timestamp citizen_hash scheme amount_str previous_hash
            let entry : LedgerEntry :=
              ⟨timestamp, citizen_hash, scheme, amount, previous_hash, current_hash⟩
            let ledger2 := b.2.ledger ++ [entry]
            let rb := int_trunc (calculate_remaining_budget ledger2)
            let status2 := if rb ≤ 0 then "LOCKED" else b.2.status
            ({ success := true, message := "Transaction Approved",
               citizen_name := some row.name, remaining_budget := some rb,
               transaction_hash := some (current_hash.take 16 ++ "...") },
             { status := status2, ledger := ledger2, citizens := b.2.citizens })

/-- The `/process` Flask route: parse the submitted amount (`none` models
a missing or unparsable value, defaulted to `0.0`), reject unsupported
schemes, run the amount-mismatch pre-check only on a truthy amount, and
call `process_transaction` with the catalog amount. -/
def process (env : Env) (s : SysState) (citizen_id scheme : String) (amountField : Option ℚ) :
    AppResult × SysState :=
  let submitted_amount := amountField.getD 0
  match get_expected_scheme_amount scheme with
  | none =>
    ({ success := false, message := "Unsupported scheme", gate := some "eligibility" }, s)
  | some expected_amount =>
    if submitted_amount ≠ 0 ∧ |submitted_amount - expected_amount| > AMOUNT_TOLERANCE then
      ({ success := false, message := "Amount does not match authorized scheme value",
         gate := some "eligibility" }, s)
    else process_transaction env s citizen_id scheme expected_amount

end App

namespace FD

/-- Function `eligibility_gate` of `fraud-dection.py` (exact amount equality, and
any already-recorded claim is refused). -/
def eligibility_gate (row : CitizenRecord) (scheme : String) (amount : ℚ) : Bool × String :=
  if row.account_status ≠ "Active" then (false, "Account Not Active")
  else if row.aadhaar_linked ≠ true then (false, "Aadhaar Not Linked")
  else if row.scheme_eligibility ≠ scheme then (false, "Scheme Not Eligible")
  else if row.scheme_amount ≠ amount then (false, "Invalid Scheme Amount")
  else if row.claim_count ≥ 1 then (false, "Claim already settled")
  else (true, "Eligible")

/-- Function `frequency_gate` of `fraud-dection.py`. -/
def frequency_gate (env : Env) (last_claim_date : String) : Bool × String :=
  match env.parseDate last_claim_date with
  | none => (false, "Invalid last claim date")
  | some last_date =>
    if env.today - last_date < 30 then (false, "Claim within 30 days not allowed")
    else (true, "Frequency OK")

/-- Function `budget_gate` of `fraud-dection.py`: a pure check, no status change. -/
def budget_gate (ledger : List LedgerEntry) (amount : ℚ) : Bool × String :=
  if amount > calculate_remaining_budget ledger then (false, "Insufficient Budget")
  else (true, "Budget Approved")

/-- Function `citizen_has_prior_claim`: does any ledger row carry this citizen's
fingerprint? -/
def citizen_has_prior_claim (env : Env) (ledger : List LedgerEntry) (citizen_id : String) : Bool :=
  ledger.any (fun e => e.citizen_hash = hash_id env citizen_id)

/-- Function `process_transaction` of `fraud-dection.py`: returns only a message
string; gates run in the order eligibility / frequency / budget; the
commit appends the ledger row and updates the citizen's claim history. -/
def process_transaction (env : Env) (s : SysState) (citizen_id scheme : String) (amount : ℚ) :
    String × SysState :=
  if s.status ≠ "ACTIVE" then
    let st := s.status
    (s!"System is {st}. Transaction Blocked.", s)
  else if ¬ verify_ledger_integrity env s.ledger then
    ("Ledger Tampering Detected. System Frozen.", { s with status := "FROZEN" })
  else
    match get_citizen_record s.citizens citizen_id with
    | none => ("Citizen Not Found", s)
    | some row =>
      if citizen_has_prior_claim env s.ledger citizen_id then ("Claim already settled", s)
      else
        let e := eligibility_gate row scheme amount
        if ¬ e.1 then (e.2, s)
        else
          let f := frequency_gate env row.last_claim_date
          if ¬ f.1 then (f.2, s)
          else
            let b := budget_gate s.ledger amount
            if ¬ b.1 then (b.2, s)
            else
              let citizen_hash := hash_id env citizen_id
              let timestamp := env.now
              let previous_hash := get_previous_hash s.ledger
              let amount_str := amount_hash_value amount
              let current_hash := generate_hash env timestamp citizen_hash scheme amount_str previous_hash
              let entry : LedgerEntry :=
                ⟨timestamp, citizen_hash, scheme, amount, previous_hash, current_hash⟩
              let ledger2 := s.ledger ++ [entry]
              let citizens2 := s.citizens.map (fun c =>
                if c.citizen_id = row.citizen_id then
                  { c with claim_count := c.claim_count + 1, last_claim_date := date_only timestamp }
                else c)
              let rb := int_trunc (calculate_remaining_budget ledger2)
              (s!"Transaction Approved [SUCCESS] | Remaining Budget: Rs.{rb}",
               { status := s.status, ledger := ledger2, citizens := citizens2 })

end FD

namespace TF

/-- One `|`-separated line of `ledger.txt` as `test_fraud.py` reads it
(all six fields are raw strings). -/
structure FileEntry where
  timestamp : String
  citizen_hash : String
  scheme : String
  amount : String
  previous_hash : String
  current_hash : String
deriving DecidableEq, Repr, Inhabited

/-- The loop of `verify_ledger_integrity` in `test_fraud.py`: it only
compares the recomputed hash with `current_hash`; the running
`previous_hash` variable is assigned but never compared. -/
def verify_from (env : Env) : String → List FileEntry → Bool
  | _, [] => true
  | _prev, e :: rest =>
    if generate_hash env e.timestamp e.citizen_hash e.scheme e.amount e.previous_hash
        ≠ e.current_hash then false
    else verify_from env e.current_hash rest

/-- Function `verify_ledger_integrity` of `test_fraud.py`. -/
def verify_ledger_integrity (env : Env) (ledger : List FileEntry) : Bool :=
  verify_from env "GENESIS" ledger

/-- Function `budget_gate` of `test_fraud.py`: on approval it decrements the
global `BUDGET`, so it returns the new budget alongside the verdict. -/
def budget_gate (budget : ℚ) (amount : ℚ) : (Bool × String) × ℚ :=
  if amount > budget then ((false, "Insufficient Budget"), budget)
  else ((true, "Budget Approved"), budget - amount)

end TF

/-!  Concrete instantiations used to evaluate the embedding on closed
inputs: an identity "hash", a three-point date parser and a fixed clock. -/

def env0 : Env :=
  { hash := fun s => s
    parseDate := fun s => if s = "recent" then some 95 else if s = "old" then some 0 else none
    today := 100
    now := "2025-01-01 10:00:00" }

def citizenA : CitizenRecord :=
  ⟨"123456789012", "Rahul", "Active", true, "Health_Scheme", 5000, 0, "old"⟩

def sA : SysState := ⟨"ACTIVE", [], [citizenA]⟩

def citizenB : CitizenRecord := ⟨"999", "Neha", "Active", true, "sch1", 5000, 0, "recent"⟩

def entryB : LedgerEntry := ⟨"t", "c", "k", 996000, "GENESIS", "tck996000GENESIS"⟩

def sB : SysState := ⟨"ACTIVE", [entryB], [citizenB]⟩

def citizenN : CitizenRecord := ⟨"777", "Mala", "Active", true, "neg", -5, 0, "old"⟩

def sN : SysState := ⟨"ACTIVE", [], [citizenN]⟩

def citizenC : CitizenRecord := ⟨"555", "Sita", "Active", true, "sch1", 5000, 1, "old"⟩

def citizenF : CitizenRecord := ⟨"888", "Ravi", "Active", true, "sch1", 5000, 0, "old"⟩

def sF : SysState := ⟨"ACTIVE", [], [citizenF]⟩

def citizenLowB : CitizenRecord :=
  ⟨"444", "Asha", "Active", true, "Health_Scheme", 5000, 0, "recent"⟩

def sLowB : SysState := ⟨"ACTIVE", [entryB], [citizenLowB]⟩

def entryFull : LedgerEntry := ⟨"t", "c", "k", 1000000, "GENESIS", "tck1000000GENESIS"⟩

def sLocked : SysState := ⟨"LOCKED", [], []⟩

def sEmpty : SysState := ⟨"ACTIVE", [], []⟩

def sLedgerOnly : SysState := ⟨"ACTIVE", [entryB], []⟩

def citizenP : CitizenRecord := ⟨"c", "Hari", "Active", true, "k", 5, 0, "old"⟩

def sP : SysState := ⟨"ACTIVE", [entryB], [citizenP]⟩

def inactiveRow : CitizenRecord :=
  ⟨"555566667777", "Amit", "Inactive", true, "Health_Scheme", 5000, 0, "old"⟩

def feA : TF.FileEntry := ⟨"t", "c", "k", "1", "GENESIS", "tck1GENESIS"⟩

def feB : TF.FileEntry := ⟨"u", "d", "m", "2", "WRONG", "udm2WRONG"⟩

/-!  C2: integrity of the hash chain. -/

/-- The chain condition of the claim, entry by entry: hash recomputed from
the entry's own stored fields matches `current_hash`, and `previous_hash`
links to the predecessor (seed for the first entry). -/
def chain_from (env : Env) (prev : String) (l : List LedgerEntry) : Prop :=
  ∀ i, i < l.length →
    entry_recomputed env (l.getD i default) = (l.getD i default).current_hash ∧
    (l.getD i default).previous_hash =
      (if i = 0 then prev else (l.getD (i - 1) default).current_hash)

/-- The claim's right-hand side, with the genesis sentinel. -/
def chain_spec (env : Env) (l : List LedgerEntry) : Prop :=
  chain_from env "GENESIS" l

lemma chain_from_cons (env : Env) (prev : String) (e : LedgerEntry) (rest : List LedgerEntry) :
    chain_from env prev (e :: rest) ↔
      (entry_recomputed env e = e.current_hash ∧ e.previous_hash = prev) ∧
        chain_from env e.current_hash rest := by
  constructor
  · intro h
    refine ⟨?_, ?_⟩
    · have h0 := h 0 (by simp)
      simpa using h0
    · intro j hj
      have hj1 : j + 1 < (e :: rest).length := by simp; omega
      have hstep := h (j + 1) hj1
      rcases hstep with ⟨hrec, hprev⟩
      refine ⟨by simpa using hrec, ?_⟩
      rcases j with - | k
      · simpa using hprev
      · simpa using hprev
  · rintro ⟨⟨hrec, hprev⟩, htail⟩ i hi
    rcases i with - | j
    · simp [hrec, hprev]
    · have hj : j < rest.length := by simpa using hi
      have hstep := htail j hj
      rcases hstep with ⟨hrec2, hprev2⟩
      refine ⟨by simpa using hrec2, ?_⟩
      rcases j with - | k
      · simpa using hprev2
      · simpa using hprev2

lemma verify_from_iff (env : Env) (l : List LedgerEntry) :
    ∀ prev : String, verify_from env prev l = true ↔ chain_from env prev l := by
  induction l with
  | nil =>
    intro prev
    simp [verify_from, chain_from]
  | cons e rest ih =>
    intro prev
    rw [chain_from_cons]
    by_cases hrec : entry_recomputed env e = e.current_hash
    · by_cases hprev : e.previous_hash = prev
      · have : verify_from env prev (e :: rest) = verify_from env e.current_hash rest := by
          simp [verify_from, hrec, hprev]
        rw [this, ih e.current_hash]
        simp [hrec, hprev]
      · have : verify_from env prev (e :: rest) = false := by
          simp [verify_from, hprev]
        simp [this, hprev]
    · have : verify_from env prev (e :: rest) = false := by
        simp [verify_from, hrec]
      simp [this, hrec]

/-- C2 (as frozen, quantified over all three variants' functions) fails on
the `test_fraud.py` variant: this two-line ledger has a broken
`previous_hash` link, so the claimed iff demands `false`, yet that
variant's `verify_ledger_integrity` ignores the link and returns `true`. -/
theorem C2_counterexample :
    TF.verify_ledger_integrity env0 [feA, feB] = true ∧
      feB.previous_hash ≠ feA.current_hash := by
  constructor
  · norm_num [TF.verify_ledger_integrity, TF.verify_from, generate_hash, env0, feA, feB]
    decide
  · decide

/-- C2, amended to the Flask (`app.py`) and sqlite (`fraud-dection.py`)
variants, whose `verify_ledger_integrity` is the same code: for every
(not necessarily empty) ledger it returns true iff every entry's
recomputed hash equals its stored `current_hash` and its `previous_hash`
equals the predecessor's `current_hash` (the `"GENESIS"` sentinel for the
first entry). -/
theorem C2_amended (env : Env) (l : List LedgerEntry) (_hne : l ≠ []) :
    verify_ledger_integrity env l = true ↔ chain_spec env l := by
  simpa [verify_ledger_integrity, chain_spec] using verify_from_iff env l "GENESIS"

/-- C2 witness: the amended theorem evaluated on a concrete one-entry
valid chain. -/
theorem C2_witness :
    ([⟨"t", "c", "k", 1, "GENESIS", "tck1GENESIS"⟩] : List LedgerEntry) ≠ [] ∧
      chain_spec env0 [⟨"t", "c", "k", 1, "GENESIS", "tck1GENESIS"⟩] := by
  refine ⟨by simp, ?_⟩
  refine (C2_amended env0 [⟨"t", "c", "k", 1, "GENESIS", "tck1GENESIS"⟩] (by simp)).mp ?_
  norm_num [verify_ledger_integrity, verify_from, entry_recomputed, generate_hash,
    amount_hash_value, env0]
  decide

/-!  C8: an inactive account is always denied first. -/

/-- C8: in both the Flask and the sqlite eligibility gates, a citizen row
whose `account_status` differs from `"Active"` is denied with the
account-not-active reason, whatever the other fields, the scheme and the
amount are. -/
theorem C8_inactive_denied (row : CitizenRecord) (scheme : String) (amount : ℚ)
    (h : row.account_status ≠ "Active") :
    App.eligibility_gate row scheme amount = (false, "Account Not Active") ∧
      FD.eligibility_gate row scheme amount = (false, "Account Not Active") := by
  constructor
  · unfold App.eligibility_gate
    simp [h]
  · unfold FD.eligibility_gate
    simp [h]

/-- C8 witness: the theorem applied to a concrete inactive record. -/
theorem C8_witness :
    inactiveRow.account_status ≠ "Active" ∧
      App.eligibility_gate inactiveRow "Health_Scheme" 5000 = (false, "Account Not Active") ∧
      FD.eligibility_gate inactiveRow "Health_Scheme" 5000 = (false, "Account Not Active") :=
  ⟨by decide, C8_inactive_denied inactiveRow "Health_Scheme" 5000 (by decide)⟩

/-!  C7: remaining budget. -/

lemma foldl_add_amount (l : List LedgerEntry) :
    ∀ a : ℚ, l.foldl (fun acc e => acc + e.amount) a = a + (l.map (fun e => e.amount)).sum := by
  induction l with
  | nil => simp
  | cons e rest ih =>
    intro a
    simp [List.foldl_cons, ih, add_assoc]

lemma sum_amounts_eq (l : List LedgerEntry) :
    sum_amounts l = (l.map (fun e => e.amount)).sum := by
  simpa using foldl_add_amount l 0

lemma sum_amounts_append (l : List LedgerEntry) (e : LedgerEntry) :
    sum_amounts (l ++ [e]) = sum_amounts l + e.amount := by
  unfold sum_amounts
  rw [List.foldl_append]
  rfl

lemma remaining_nonneg (l : List LedgerEntry) : 0 ≤ calculate_remaining_budget l :=
  le_max_right _ _

lemma remaining_append_le (l : List LedgerEntry) (e : LedgerEntry) (h : 0 ≤ e.amount) :
    calculate_remaining_budget (l ++ [e]) ≤ calculate_remaining_budget l := by
  unfold calculate_remaining_budget
  rw [sum_amounts_append]
  exact max_le_max (by linarith) le_rfl

lemma expected_amount_ge (scheme : String) (expected : ℚ)
    (h : get_expected_scheme_amount scheme = some expected) : 5000 ≤ expected := by
  unfold get_expected_scheme_amount at h
  split_ifs at h <;> simp_all <;> linarith [h.symm]

lemma eligibility_gate_pos (row : CitizenRecord) (scheme : String) (amount : ℚ)
    (h : (App.eligibility_gate row scheme amount).1 = true) : 0 < amount := by
  unfold App.eligibility_gate at h
  split at h
  · simp at h
  split at h
  · simp at h
  split at h
  · simp at h
  split at h
  · simp at h
  next expected hexp =>
    split at h
    · simp at h
    split at h
    next htol =>
      exfalso
      simp at h
    next htol =>
      have h5 : 5000 ≤ expected := expected_amount_ge scheme expected hexp
      have habs : |amount - expected| ≤ AMOUNT_TOLERANCE := le_of_not_lt htol
      have := abs_le.mp habs
      unfold AMOUNT_TOLERANCE at this
      linarith [this.1, this.2]

lemma app_budget_gate_ledger (s : SysState) (amount : ℚ) :
    (App.budget_gate s amount).2.ledger = s.ledger := by
  unfold App.budget_gate
  dsimp only
  split_ifs <;> rfl

lemma app_budget_gate_citizens (s : SysState) (amount : ℚ) :
    (App.budget_gate s amount).2.citizens = s.citizens := by
  unfold App.budget_gate
  dsimp only
  split_ifs <;> rfl

lemma app_budget_gate_pass (s : SysState) (amount : ℚ)
    (h : (App.budget_gate s amount).1.1 = true) : (App.budget_gate s amount).2 = s := by
  unfold App.budget_gate at h ⊢
  dsimp only at h ⊢
  split_ifs at h ⊢
  all_goals simp_all

/-- Shape of the ledger after a Flask `process_transaction` call: either
untouched, or exactly one appended entry carrying the requested (hence
positive) amount. -/
lemma app_pt_ledger (env : Env) (s : SysState) (cid sch : String) (amt : ℚ) :
    (App.process_transaction env s cid sch amt).2.ledger = s.ledger ∨
      (0 < amt ∧ ∃ en : LedgerEntry,
        (App.process_transaction env s cid sch amt).2.ledger = s.ledger ++ [en] ∧
        en.amount = amt) := by
  unfold App.process_transaction
  dsimp only
  split
  · left; rfl
  split
  · left; rfl
  split
  · left; rfl
  next row hrow =>
    split
    · left; rfl
    next he =>
      split
      · left; exact app_budget_gate_ledger s amt
      next hb =>
        split
        · left; exact app_budget_gate_ledger s amt
        next hf =>
          right
          have he' : (App.eligibility_gate row sch amt).1 = true := by
            by_contra hc
            exact he (by simpa using hc)
          have hb' : (App.budget_gate s amt).1.1 = true := by
            by_contra hc
            exact hb (by simpa using hc)
          rw [app_budget_gate_pass s amt hb']
          exact ⟨eligibility_gate_pos row sch amt he', _, rfl, rfl⟩

/-- C7 (as frozen) fails on the sqlite variant: a registry row with a
negative `scheme_amount` passes every gate of `fraud-dection.py`, an
entry is appended, and the remaining budget strictly increases — so the
remaining budget is not monotonically non-increasing as entries are
appended. -/
theorem C7_counterexample :
    (FD.process_transaction env0 sN "777" "neg" (-5)).2.ledger ≠ sN.ledger ∧
      calculate_remaining_budget sN.ledger
        < calculate_remaining_budget (FD.process_transaction env0 sN "777" "neg" (-5)).2.ledger := by
  constructor
  · norm_num [FD.process_transaction, FD.eligibility_gate, FD.frequency_gate, FD.budget_gate,
      FD.citizen_has_prior_claim, sN, citizenN, env0, verify_ledger_integrity, verify_from,
      get_citizen_record, calculate_remaining_budget, sum_amounts, INITIAL_BUDGET, int_trunc,
      hash_id, generate_hash, get_previous_hash, amount_hash_value, date_only]
    decide
  · norm_num [FD.process_transaction, FD.eligibility_gate, FD.frequency_gate, FD.budget_gate,
      FD.citizen_has_prior_claim, sN, citizenN, env0, verify_ledger_integrity, verify_from,
      get_citizen_record, calculate_remaining_budget, sum_amounts, INITIAL_BUDGET, int_trunc,
      hash_id, generate_hash, get_previous_hash, amount_hash_value, date_only]
    simp

/-- C7, amended: `calculate_remaining_budget` is exactly
`max(initial_budget - sum of entry amounts, 0)` and never negative; it is
non-increasing when an entry with nonnegative amount is appended, and in
particular across every Flask `process_transaction` call (whose gates
only approve positive amounts).  The sqlite variant can append a
negative-amount entry, which increases it (see the counterexample). -/
theorem C7_amended :
    (∀ l : List LedgerEntry,
        calculate_remaining_budget l = max (INITIAL_BUDGET - (l.map (fun e => e.amount)).sum) 0) ∧
      (∀ l : List LedgerEntry, 0 ≤ calculate_remaining_budget l) ∧
      (∀ (l : List LedgerEntry) (e : LedgerEntry), 0 ≤ e.amount →
        calculate_remaining_budget (l ++ [e]) ≤ calculate_remaining_budget l) ∧
      (∀ (env : Env) (s : SysState) (cid sch : String) (amt : ℚ),
        calculate_remaining_budget (App.process_transaction env s cid sch amt).2.ledger
          ≤ calculate_remaining_budget s.ledger) := by
  refine ⟨?_, remaining_nonneg, remaining_append_le, ?_⟩
  · intro l
    unfold calculate_remaining_budget
    rw [sum_amounts_eq]
  · intro env s cid sch amt
    rcases app_pt_ledger env s cid sch amt with h | ⟨hpos, en, hl, ham⟩
    · rw [h]
    · rw [hl]
      exact remaining_append_le s.ledger en (by rw [ham]; exact le_of_lt hpos)

/-- C7 witness: the amended theorem evaluated at a concrete ledger, a
concrete nonnegative-amount entry and a concrete processor call. -/
theorem C7_witness :
    (0 : ℚ) ≤ entryB.amount ∧
      calculate_remaining_budget ([] ++ [entryB]) ≤ calculate_remaining_budget [] ∧
      calculate_remaining_budget (App.process_transaction env0 sA "123456789012" "Health_Scheme" 5000).2.ledger
        ≤ calculate_remaining_budget sA.ledger :=
  ⟨by norm_num [entryB],
   C7_amended.2.2.1 [] entryB (by norm_num [entryB]),
   C7_amended.2.2.2 env0 sA "123456789012" "Health_Scheme" 5000⟩

/-!  C1: updating the citizen's claim history. -/

lemma append_singleton_ne {α : Type} (l : List α) (a : α) : l ++ [a] ≠ l := by
  intro h
  have := congrArg List.length h
  simp at this

/-- C1 (as frozen) fails on the Flask variant: this concrete transaction
is fully approved by `app.py`'s `process_transaction`, yet the citizen
table is returned unchanged — `claim_count` is not incremented and
`last_claim_date` is not set. -/
theorem C1_counterexample :
    (App.process_transaction env0 sA "123456789012" "Health_Scheme" 5000).1.success = true ∧
      (App.process_transaction env0 sA "123456789012" "Health_Scheme" 5000).2.citizens = sA.citizens := by
  norm_num [App.process_transaction, App.eligibility_gate, App.budget_gate, App.frequency_gate,
    sA, citizenA, env0, get_expected_scheme_amount, AMOUNT_TOLERANCE, verify_ledger_integrity,
    verify_from, get_citizen_record, calculate_remaining_budget, sum_amounts, INITIAL_BUDGET,
    int_trunc, hash_id, generate_hash, get_previous_hash, amount_hash_value, date_only]
  decide

/-- C1, amended: the sqlite variant (`fraud-dection.py`) behaves as the
claim says — on approval it appends the entry, increments the cited
citizen's `claim_count` and sets `last_claim_date` to the disbursement
date, and whenever no entry is appended the citizen table is unchanged —
while the Flask variant (`app.py`) never modifies citizen records inside
`process_transaction`. -/
theorem C1_amended :
    (∀ (env : Env) (s : SysState) (cid sch : String) (amt : ℚ) (row : CitizenRecord),
      s.status = "ACTIVE" →
      verify_ledger_integrity env s.ledger = true →
      get_citizen_record s.citizens cid = some row →
      FD.citizen_has_prior_claim env s.ledger cid = false →
      (FD.eligibility_gate row sch amt).1 = true →
      (FD.frequency_gate env row.last_claim_date).1 = true →
      (FD.budget_gate s.ledger amt).1 = true →
      (FD.process_transaction env s cid sch amt).2.citizens =
        s.citizens.map (fun c =>
          if c.citizen_id = row.citizen_id then
            { c with claim_count := c.claim_count + 1, last_claim_date := date_only env.now }
          else c) ∧
      (FD.process_transaction env s cid sch amt).2.ledger ≠ s.ledger) ∧
    (∀ (env : Env) (s : SysState) (cid sch : String) (amt : ℚ),
      (FD.process_transaction env s cid sch amt).2.ledger = s.ledger →
      (FD.process_transaction env s cid sch amt).2.citizens = s.citizens) ∧
    (∀ (env : Env) (s : SysState) (cid sch : String) (amt : ℚ),
      (App.process_transaction env s cid sch amt).2.citizens = s.citizens) := by
  refine ⟨?_, ?_, ?_⟩
  · intro env s cid sch amt row hst hv hfind hprior hel hfr hbu
    unfold FD.process_transaction
    dsimp only
    rw [hfind]
    simp only [hst, hv, hprior, hel, hfr, hbu]
    simp
  · intro env s cid sch amt
    unfold FD.process_transaction
    dsimp only
    split
    · intro _; rfl
    split
    · intro _; rfl
    split
    · intro _; rfl
    next row hrow =>
      split
      · intro _; rfl
      split
      · intro _; rfl
      split
      · intro _; rfl
      split
      · intro _; rfl
      · intro h
        exact absurd h (append_singleton_ne s.ledger _)
  · intro env s cid sch amt
    unfold App.process_transaction
    dsimp only
    split
    · rfl
    split
    · rfl
    split
    · rfl
    next row hrow =>
      split
      · rfl
      split
      · exact app_budget_gate_citizens s amt
      split
      · exact app_budget_gate_citizens s amt
      · exact app_budget_gate_citizens s amt

/-- C1 witness: the amended theorem evaluated on a concrete approved
sqlite transaction and a concrete Flask call. -/
theorem C1_witness :
    (FD.process_transaction env0 sF "888" "sch1" 5000).2.citizens =
        sF.citizens.map (fun c =>
          if c.citizen_id = citizenF.citizen_id then
            { c with claim_count := c.claim_count + 1, last_claim_date := date_only env0.now }
          else c) ∧
      (FD.process_transaction env0 sF "888" "sch1" 5000).2.ledger ≠ sF.ledger ∧
      (App.process_transaction env0 sA "123456789012" "Health_Scheme" 5000).2.citizens = sA.citizens := by
  have h := C1_amended.1 env0 sF "888" "sch1" 5000 citizenF rfl (by decide) (by decide)
    (by decide) (by decide) (by decide)
    (by norm_num [FD.budget_gate, calculate_remaining_budget, sum_amounts, INITIAL_BUDGET, sF])
  exact ⟨h.1, h.2, C1_amended.2.2 env0 sA "123456789012" "Health_Scheme" 5000⟩

/-!  C3: gate evaluation order. -/

/-- C3 (as frozen) fails on the sqlite variant: this request passes
eligibility but fails both the budget gate (only 4000 remains) and the
frequency gate (last claim 5 days ago); under the claimed canonical
order eligibility / budget / frequency the reported reason would be the
budget gate's, yet `fraud-dection.py` evaluates frequency before budget
and reports the frequency reason. -/
theorem C3_counterexample :
    (FD.eligibility_gate citizenB "sch1" 5000).1 = true ∧
      (FD.budget_gate sB.ledger 5000).1 = false ∧
      (FD.frequency_gate env0 citizenB.last_claim_date).1 = false ∧
      FD.process_transaction env0 sB "999" "sch1" 5000 =
        ("Claim within 30 days not allowed", sB) := by
  refine ⟨by decide, ?_, by decide, ?_⟩
  · norm_num [FD.budget_gate, calculate_remaining_budget, sum_amounts, INITIAL_BUDGET, sB, entryB]
  · norm_num [FD.process_transaction, FD.eligibility_gate, FD.frequency_gate, FD.budget_gate,
      FD.citizen_has_prior_claim, sB, citizenB, entryB, env0, verify_ledger_integrity, verify_from,
      entry_recomputed, get_citizen_record, hash_id, generate_hash, amount_hash_value]
    decide

/-- C3, amended: the Flask variant (`app.py`) does evaluate the gates in
the canonical order eligibility, then budget, then frequency, reporting
the first failing gate's reason; the sqlite variant (`fraud-dection.py`)
instead evaluates eligibility, then frequency, then budget. -/
theorem C3_amended :
    (∀ (env : Env) (s : SysState) (cid sch : String) (amt : ℚ) (row : CitizenRecord),
      s.status = "ACTIVE" →
      verify_ledger_integrity env s.ledger = true →
      get_citizen_record s.citizens cid = some row →
      (((App.eligibility_gate row sch amt).1 = false →
        (App.process_transaction env s cid sch amt).1.gate = some "eligibility" ∧
        (App.process_transaction env s cid sch amt).1.message =
          (App.eligibility_gate row sch amt).2) ∧
       ((App.eligibility_gate row sch amt).1 = true →
        (App.budget_gate s amt).1.1 = false →
        (App.process_transaction env s cid sch amt).1.gate = some "budget" ∧
        (App.process_transaction env s cid sch amt).1.message = (App.budget_gate s amt).1.2) ∧
       ((App.eligibility_gate row sch amt).1 = true →
        (App.budget_gate s amt).1.1 = true →
        (App.frequency_gate env row.last_claim_date).1 = false →
        (App.process_transaction env s cid sch amt).1.gate = some "frequency" ∧
        (App.process_transaction env s cid sch amt).1.message =
          (App.frequency_gate env row.last_claim_date).2))) ∧
    (∀ (env : Env) (s : SysState) (cid sch : String) (amt : ℚ) (row : CitizenRecord),
      s.status = "ACTIVE" →
      verify_ledger_integrity env s.ledger = true →
      get_citizen_record s.citizens cid = some row →
      FD.citizen_has_prior_claim env s.ledger cid = false →
      (((FD.eligibility_gate row sch amt).1 = false →
        (FD.process_transaction env s cid sch amt).1 = (FD.eligibility_gate row sch amt).2) ∧
       ((FD.eligibility_gate row sch amt).1 = true →
        (FD.frequency_gate env row.last_claim_date).1 = false →
        (FD.process_transaction env s cid sch amt).1 =
          (FD.frequency_gate env row.last_claim_date).2) ∧
       ((FD.eligibility_gate row sch amt).1 = true →
        (FD.frequency_gate env row.last_claim_date).1 = true →
        (FD.budget_gate s.ledger amt).1 = false →
        (FD.process_transaction env s cid sch amt).1 = (FD.budget_gate s.ledger amt).2))) := by
  constructor
  · intro env s cid sch amt row hst hv hfind
    refine ⟨?_, ?_, ?_⟩
    · intro hel
      unfold App.process_transaction
      dsimp only
      rw [hfind]
      simp [hst, hv, hel]
    · intro hel hbu
      unfold App.process_transaction
      dsimp only
      rw [hfind]
      simp [hst, hv, hel, hbu]
    · intro hel hbu hfr
      unfold App.process_transaction
      dsimp only
      rw [hfind]
      simp [hst, hv, hel, hbu, hfr]
  · intro env s cid sch amt row hst hv hfind hprior
    refine ⟨?_, ?_, ?_⟩
    · intro hel
      unfold FD.process_transaction
      dsimp only
      rw [hfind]
      simp [hst, hv, hprior, hel]
    · intro hel hfr
      unfold FD.process_transaction
      dsimp only
      rw [hfind]
      simp [hst, hv, hprior, hel, hfr]
    · intro hel hfr hbu
      unfold FD.process_transaction
      dsimp only
      rw [hfind]
      simp [hst, hv, hprior, hel, hfr, hbu]

/-- C3 witness: the amended theorem evaluated on concrete denials — a
Flask call that fails the budget gate while frequency would also fail,
and a sqlite call that fails frequency. -/
theorem C3_witness :
    ((App.process_transaction env0 sLowB "444" "Health_Scheme" 5000).1.gate = some "budget" ∧
      (App.process_transaction env0 sLowB "444" "Health_Scheme" 5000).1.message =
        (App.budget_gate sLowB 5000).1.2) ∧
      (FD.process_transaction env0 sB "999" "sch1" 5000).1 =
        (FD.frequency_gate env0 citizenB.last_claim_date).2 := by
  constructor
  · refine (C3_amended.1 env0 sLowB "444" "Health_Scheme" 5000 citizenLowB rfl ?_ ?_).2.1 ?_ ?_
    · decide
    · decide
    · norm_num [App.eligibility_gate, citizenLowB, get_expected_scheme_amount, AMOUNT_TOLERANCE]
    · norm_num [App.budget_gate, calculate_remaining_budget, sum_amounts, INITIAL_BUDGET,
        sLowB, entryB]
  · refine (C3_amended.2 env0 sB "999" "sch1" 5000 citizenB rfl ?_ ?_ ?_).2.1 ?_ ?_
    · decide
    · decide
    · decide
    · decide
    · decide

/-!  C4: the budget gate. -/

/-- C4 (as frozen) fails on the `test_fraud.py` variant: its
`budget_gate` does mutate the budget, decrementing the global `BUDGET`
by the amount on approval. -/
theorem C4_counterexample :
    TF.budget_gate 1000000 5000 = ((true, "Budget Approved"), 995000) ∧
      (995000 : ℚ) ≠ 1000000 := by
  constructor
  · norm_num [TF.budget_gate]
  · norm_num

/-- C4, amended: the Flask variant's `budget_gate` behaves exactly as the
claim says (locks and denies on exhausted budget, denies leaving the
state unchanged when the amount exceeds a positive remainder, and never
touches ledger or citizens); the sqlite variant's `budget_gate` is a
pure check that denies exactly when the amount exceeds the remainder and
never transitions the status, even when the remainder is ≤ 0; the test
variant's `budget_gate` decrements the shared budget on approval. -/
theorem C4_amended :
    (∀ (s : SysState) (amt : ℚ), calculate_remaining_budget s.ledger ≤ 0 →
      App.budget_gate s amt =
        ((false, "Budget Exhausted. System Locked."), { s with status := "LOCKED" })) ∧
      (∀ (s : SysState) (amt : ℚ),
        0 < calculate_remaining_budget s.ledger → calculate_remaining_budget s.ledger < amt →
        App.budget_gate s amt = ((false, "Insufficient Budget"), s)) ∧
      (∀ (s : SysState) (amt : ℚ),
        (App.budget_gate s amt).2.ledger = s.ledger ∧
        (App.budget_gate s amt).2.citizens = s.citizens) ∧
      (∀ (l : List LedgerEntry) (amt : ℚ),
        (FD.budget_gate l amt).1 = false ↔ calculate_remaining_budget l < amt) ∧
      (∀ (b amt : ℚ), amt ≤ b →
        (TF.budget_gate b amt).1.1 = true ∧ (TF.budget_gate b amt).2 = b - amt) := by
  refine ⟨?_, ?_, ?_, ?_, ?_⟩
  · intro s amt h
    unfold App.budget_gate
    rw [if_pos h]
  · intro s amt h0 hlt
    unfold App.budget_gate
    rw [if_neg (not_le.mpr h0), if_pos hlt]
  · intro s amt
    exact ⟨app_budget_gate_ledger s amt, app_budget_gate_citizens s amt⟩
  · intro l amt
    unfold FD.budget_gate
    split_ifs with h
    · simpa using h
    · simpa using h
  · intro b amt h
    unfold TF.budget_gate
    rw [if_neg (not_lt.mpr h)]
    exact ⟨rfl, rfl⟩

/-- C4 witness: the amended theorem evaluated at a full ledger (remaining
0), a nearly full ledger (remaining 4000 < 5000), a concrete sqlite
denial and a concrete test-variant approval. -/
theorem C4_witness :
    App.budget_gate ⟨"ACTIVE", [entryFull], []⟩ 5000 =
        ((false, "Budget Exhausted. System Locked."),
          { status := "LOCKED", ledger := [entryFull], citizens := [] }) ∧
      App.budget_gate sLowB 5000 = ((false, "Insufficient Budget"), sLowB) ∧
      ((FD.budget_gate [entryB] 5000).1 = false ↔
        calculate_remaining_budget [entryB] < 5000) ∧
      (TF.budget_gate 1000000 500).1.1 = true ∧ (TF.budget_gate 1000000 500).2 = 1000000 - 500 := by
  refine ⟨?_, ?_, C4_amended.2.2.2.1 [entryB] 5000, C4_amended.2.2.2.2 1000000 500 (by norm_num)⟩
  · exact C4_amended.1 ⟨"ACTIVE", [entryFull], []⟩ 5000
      (by norm_num [calculate_remaining_budget, sum_amounts, INITIAL_BUDGET, entryFull])
  · exact C4_amended.2.1 sLowB 5000
      (by norm_num [calculate_remaining_budget, sum_amounts, INITIAL_BUDGET, sLowB, entryB])
      (by norm_num [calculate_remaining_budget, sum_amounts, INITIAL_BUDGET, sLowB, entryB])

/-!  C5: the claim-count ceiling. -/

lemma app_claim_limit_implies (row : CitizenRecord) (sch : String) (amt : ℚ)
    (h : App.eligibility_gate row sch amt = (false, "Claim Limit Exceeded")) :
    3 < row.claim_count := by
  unfold App.eligibility_gate at h
  split at h
  · simp at h
  split at h
  · simp at h
  split at h
  · simp at h
  split at h
  · simp at h
  split at h
  · simp at h
  split at h
  · simp at h
  split at h
  next hcc => exact hcc
  · simp at h

/-- C5 (as frozen) fails on the sqlite variant: a citizen with
`claim_count = 1 ≤ 3` who passes every earlier eligibility check is
denied on the claim-count condition with reason "Claim already settled". -/
theorem C5_counterexample :
    FD.eligibility_gate citizenC "sch1" 5000 = (false, "Claim already settled") ∧
      citizenC.claim_count ≤ 3 := by
  constructor
  · decide
  · decide

/-- C5, amended: in the Flask variant's `eligibility_gate` the
claim-limit denial occurs exactly for `claim_count > 3` — it is reported
only when `claim_count > 3`, a citizen with `claim_count ≤ 3` is never
denied with it, and it is reported whenever every earlier check passes
and `claim_count > 3`; the sqlite variant instead denies any
`claim_count ≥ 1` with "Claim already settled". -/
theorem C5_amended :
    (∀ (row : CitizenRecord) (sch : String) (amt : ℚ),
      App.eligibility_gate row sch amt = (false, "Claim Limit Exceeded") → 3 < row.claim_count) ∧
      (∀ (row : CitizenRecord) (sch : String) (amt : ℚ), row.claim_count ≤ 3 →
        App.eligibility_gate row sch amt ≠ (false, "Claim Limit Exceeded")) ∧
      (∀ (row : CitizenRecord) (sch : String) (amt : ℚ) (expected : ℚ),
        row.account_status = "Active" → row.aadhaar_linked = true →
        row.scheme_eligibility = sch → get_expected_scheme_amount sch = some expected →
        |row.scheme_amount - expected| ≤ AMOUNT_TOLERANCE →
        |amt - expected| ≤ AMOUNT_TOLERANCE → 3 < row.claim_count →
        App.eligibility_gate row sch amt = (false, "Claim Limit Exceeded")) ∧
      (∀ (row : CitizenRecord) (sch : String) (amt : ℚ),
        row.account_status = "Active" → row.aadhaar_linked = true →
        row.scheme_eligibility = sch → row.scheme_amount = amt → 1 ≤ row.claim_count →
        FD.eligibility_gate row sch amt = (false, "Claim already settled")) := by
  refine ⟨app_claim_limit_implies, ?_, ?_, ?_⟩
  · intro row sch amt hle h
    have := app_claim_limit_implies row sch amt h
    omega
  · intro row sch amt expected h1 h2 h3 h4 h5 h6 h7
    unfold App.eligibility_gate
    rw [if_neg (by simp [h1]), if_neg (by simp [h2]), if_neg (by simp [h3]), h4]
    dsimp only
    rw [if_neg (not_lt.mpr h5), if_neg (not_lt.mpr h6), if_pos h7]
  · intro row sch amt h1 h2 h3 h4 h5
    unfold FD.eligibility_gate
    rw [if_neg (by simp [h1]), if_neg (by simp [h2]), if_neg (by simp [h3]),
      if_neg (by simp [h4]), if_pos h5]

/-- C5 witness: the amended theorem evaluated at a concrete over-limit
citizen for the Flask gate and a concrete once-claimed citizen for the
sqlite gate. -/
theorem C5_witness :
    App.eligibility_gate ⟨"321", "Devi", "Active", true, "Health_Scheme", 5000, 4, "old"⟩
        "Health_Scheme" 5000 = (false, "Claim Limit Exceeded") ∧
      FD.eligibility_gate citizenC "sch1" 5000 = (false, "Claim already settled") := by
  constructor
  · exact C5_amended.2.2.1 ⟨"321", "Devi", "Active", true, "Health_Scheme", 5000, 4, "old"⟩
      "Health_Scheme" 5000 5000 rfl rfl rfl (by norm_num [get_expected_scheme_amount])
      (by norm_num [AMOUNT_TOLERANCE]) (by norm_num [AMOUNT_TOLERANCE]) (by norm_num)
  · exact C5_amended.2.2.2 citizenC "sch1" 5000 rfl rfl rfl rfl (by norm_num [citizenC])

/-!  C6: LOCKED and FROZEN are terminal. -/

lemma app_budget_gate_status (s : SysState) (amount : ℚ)
    (h : (App.budget_gate s amount).2.status = "ACTIVE") : s.status = "ACTIVE" := by
  unfold App.budget_gate at h
  dsimp only at h
  split_ifs at h
  · simp at h
  · exact h
  · exact h

/-- C6: in both the Flask and the sqlite variants, a non-ACTIVE status is
terminal — every `process_transaction` call made while the status is not
ACTIVE fails with the system gate and leaves the whole state (ledger
included) unchanged, and no operation (`process_transaction` of either
variant, or the status-mutating Flask `budget_gate`) ever produces an
ACTIVE status from a non-ACTIVE one. -/
theorem C6_terminal :
    (∀ (env : Env) (s : SysState) (cid sch : String) (amt : ℚ), s.status ≠ "ACTIVE" →
      (App.process_transaction env s cid sch amt).1.success = false ∧
      (App.process_transaction env s cid sch amt).1.gate = some "system" ∧
      (App.process_transaction env s cid sch amt).2 = s) ∧
      (∀ (env : Env) (s : SysState) (cid sch : String) (amt : ℚ),
        (App.process_transaction env s cid sch amt).2.status = "ACTIVE" →
        s.status = "ACTIVE") ∧
      (∀ (env : Env) (s : SysState) (cid sch : String) (amt : ℚ), s.status ≠ "ACTIVE" →
        (FD.process_transaction env s cid sch amt).2 = s) ∧
      (∀ (env : Env) (s : SysState) (cid sch : String) (amt : ℚ),
        (FD.process_transaction env s cid sch amt).2.status = "ACTIVE" →
        s.status = "ACTIVE") ∧
      (∀ (s : SysState) (amt : ℚ),
        (App.budget_gate s amt).2.status = "ACTIVE" → s.status = "ACTIVE") := by
  refine ⟨?_, ?_, ?_, ?_, app_budget_gate_status⟩
  · intro env s cid sch amt h
    unfold App.process_transaction
    dsimp only
    rw [if_pos h]
    exact ⟨rfl, rfl, rfl⟩
  · intro env s cid sch amt
    unfold App.process_transaction
    dsimp only
    split
    · exact fun h => h
    split
    · intro h
      simp at h
    split
    · exact fun h => h
    next row hrow =>
      split
      · exact fun h => h
      split
      · exact app_budget_gate_status s amt
      split
      · exact app_budget_gate_status s amt
      · dsimp only
        split
        · intro h
          simp at h
        · exact app_budget_gate_status s amt
  · intro env s cid sch amt h
    unfold FD.process_transaction
    dsimp only
    rw [if_pos h]
  · intro env s cid sch amt
    unfold FD.process_transaction
    dsimp only
    split
    · exact fun h => h
    split
    · intro h
      simp at h
    split
    · exact fun h => h
    next row hrow =>
      split
      · exact fun h => h
      split
      · exact fun h => h
      split
      · exact fun h => h
      split
      · exact fun h => h
      · exact fun h => h

/-- C6 witness: the theorem evaluated at a concrete LOCKED state (both
processors), at concrete ACTIVE-preserving calls, and at a concrete
budget-gate call. -/
theorem C6_witness :
    ((App.process_transaction env0 sLocked "101" "Health_Scheme" 5000).1.success = false ∧
      (App.process_transaction env0 sLocked "101" "Health_Scheme" 5000).1.gate = some "system" ∧
      (App.process_transaction env0 sLocked "101" "Health_Scheme" 5000).2 = sLocked) ∧
      sEmpty.status = "ACTIVE" ∧
      (FD.process_transaction env0 sLocked "101" "sch1" 5000).2 = sLocked ∧
      sA.status = "ACTIVE" := by
  refine ⟨C6_terminal.1 env0 sLocked "101" "Health_Scheme" 5000 (by decide),
    C6_terminal.2.1 env0 sEmpty "101" "Health_Scheme" 5000 (by decide),
    C6_terminal.2.2.1 env0 sLocked "101" "sch1" 5000 (by decide),
    C6_terminal.2.2.2.2 sA 5000 ?_⟩
  norm_num [App.budget_gate, calculate_remaining_budget, sum_amounts, INITIAL_BUDGET, sA]

/-!  C9: the `/process` route always disburses the catalog amount. -/

/-- C9: in the Flask ingress `/process`, a submitted amount of 0 (the
default for a missing or unparsable amount) skips the amount-mismatch
pre-check and the call proceeds directly to `process_transaction` with
the catalog's authorized amount; and every ledger entry a `/process`
call creates carries exactly the catalog amount for the requested
scheme, never the caller's amount. -/
theorem C9_route_amount :
    (∀ (env : Env) (s : SysState) (cid sch : String) (af : Option ℚ) (exp : ℚ),
      get_expected_scheme_amount sch = some exp → af.getD 0 = 0 →
      App.process env s cid sch af = App.process_transaction env s cid sch exp) ∧
      (∀ (env : Env) (s : SysState) (cid sch : String) (af : Option ℚ) (e : LedgerEntry),
        e ∈ (App.process env s cid sch af).2.ledger →
        e ∈ s.ledger ∨ some e.amount = get_expected_scheme_amount sch) := by
  constructor
  · intro env s cid sch af exp hexp h0
    unfold App.process
    dsimp only
    rw [hexp]
    dsimp only
    rw [if_neg (by simp [h0])]
  · intro env s cid sch af e
    unfold App.process
    dsimp only
    cases hexp : get_expected_scheme_amount sch with
    | none =>
      intro hmem
      exact Or.inl hmem
    | some exp =>
      dsimp only
      split
      · intro hmem
        exact Or.inl hmem
      · intro hmem
        rcases app_pt_ledger env s cid sch exp with hsame | ⟨_, en, hl, ham⟩
        · rw [hsame] at hmem
          exact Or.inl hmem
        · rw [hl] at hmem
          rcases List.mem_append.mp hmem with hin | hnew
          · exact Or.inl hin
          · right
            rw [List.mem_singleton.mp hnew, ham]

/-- C9 witness: the theorem evaluated at a submitted amount of 0 (the
pre-check is skipped and the catalog amount 5000 is used) and at a
concrete route call whose ledger is returned unchanged. -/
theorem C9_witness :
    App.process env0 sA "123456789012" "Health_Scheme" (some 0) =
        App.process_transaction env0 sA "123456789012" "Health_Scheme" 5000 ∧
      (entryB ∈ sLedgerOnly.ledger ∨
        some entryB.amount = get_expected_scheme_amount "Health_Scheme") := by
  refine ⟨C9_route_amount.1 env0 sA "123456789012" "Health_Scheme" (some 0) 5000
      (by decide) (by decide),
    C9_route_amount.2 env0 sLedgerOnly "101" "Health_Scheme" (some 0) entryB ?_⟩
  norm_num [App.process, App.process_transaction, get_expected_scheme_amount,
    get_citizen_record, sLedgerOnly, env0, verify_ledger_integrity, verify_from,
    entry_recomputed, generate_hash, amount_hash_value, hash_id, entryB]
  decide

/-!  C10: the sqlite one-disbursement-per-citizen rule. -/

/-- C10: in the sqlite variant, `citizen_has_prior_claim` holds exactly
when some ledger entry carries the citizen's fingerprint, and
`process_transaction` denies such a citizen with "Claim already settled"
right after the citizen lookup and before any gate runs — the denial
holds for every scheme, amount and citizen-record content. -/
theorem C10_prior_claim :
    (∀ (env : Env) (l : List LedgerEntry) (cid : String),
      FD.citizen_has_prior_claim env l cid = true ↔
        ∃ e ∈ l, e.citizen_hash = hash_id env cid) ∧
      (∀ (env : Env) (s : SysState) (cid sch : String) (amt : ℚ) (row : CitizenRecord),
        s.status = "ACTIVE" → verify_ledger_integrity env s.ledger = true →
        get_citizen_record s.citizens cid = some row →
        FD.citizen_has_prior_claim env s.ledger cid = true →
        FD.process_transaction env s cid sch amt = ("Claim already settled", s)) := by
  constructor
  · intro env l cid
    simp [FD.citizen_has_prior_claim, List.any_eq_true]
  · intro env s cid sch amt row hst hv hfind hprior
    unfold FD.process_transaction
    dsimp only
    rw [hfind]
    simp [hst, hv, hprior]

/-- C10 witness: the theorem evaluated at a citizen whose fingerprint
already appears in the ledger. -/
theorem C10_witness :
    (FD.citizen_has_prior_claim env0 [entryB] "c" = true ↔
        ∃ e ∈ [entryB], e.citizen_hash = hash_id env0 "c") ∧
      FD.process_transaction env0 sP "c" "k" 5 = ("Claim already settled", sP) :=
  ⟨C10_prior_claim.1 env0 [entryB] "c",
   C10_prior_claim.2 env0 sP "c" "k" 5 citizenP rfl (by decide) (by decide) (by decide)⟩

end Fraud
